import Mathlib

/-!
Verification of the SKR single-header 3D engine core (src/skr/skr.h and the
earlier header variant).  The development shallowly embeds the render-resource
lifecycle: the global error channel, the shader compiler/linker pipeline
(`m_skr_gl_create_program_from_shaders` and its helpers), the GPU teardown
(`m_skr_gl_renderer_finalize`), the per-frame loop
(`m_skr_gl_glfw_renderer_render` / `SkrRendererRender`) and the first-person
camera mouse callback (`m_skr_gl_glfw_mouse_callback`).

External collaborators (OpenGL, GLFW, the file system) are modelled by an
oracle environment `GLEnv` (which shader sources compile, which files are
readable, whether a link succeeds) and by an explicit trace of backend calls
(`Event`).  GL object names are issued deterministically by a counter, starting
above the current counter value, so every created object has a nonzero name as
OpenGL guarantees.  C strings are `List Char`; machine floats of the camera are
modelled by `ℚ` for the exactly-representable control flow (deltas, clamps) and
by `ℝ` for the trigonometric front-vector recomputation.  `malloc` failure
branches are not modelled (allocation is assumed to succeed), and the
`__FILE__`/`__LINE__`/`__func__` metadata of the error macro is abstracted to a
fixed file name and the line number parameter.
-/

/-! ## Error channel (skr.h lines 119-583) -/

/-- Capacity of the global `SKR_LAST_ERROR` buffer, including the terminator. -/
def SKR_LAST_ERROR_SIZE : Nat := 1044

/-- The visible content of the error buffer: the characters before the first
NUL.  Empty list means no error is set. -/
abbrev ErrBuf := List Char

/-- `SKR_OK`: true iff the error buffer is empty. -/
def SKR_OK (e : ErrBuf) : Bool := e.isEmpty

/-- `m_skr_last_error_clear`: stores a NUL in the first byte, so the visible
content becomes empty regardless of the previous state. -/
def m_skr_last_error_clear (_e : ErrBuf) : ErrBuf := []

/-- The metadata banner that `m_skr_last_error_set_with_meta` formats in front
of the message: `"[SKR] ERROR %s:%d:%s: "` applied to file, line, function. -/
def skrErrMetaBanner (file : List Char) (line : Nat) (func : List Char) : List Char :=
  "[SKR] ERROR ".toList ++ file ++ [':'] ++ (toString line).toList ++ [':'] ++ func
    ++ [':', ' ']

/-- `m_skr_last_error_set_with_meta`: `snprintf` writes the banner (truncated to
capacity) and returns its untruncated length `written`; if `written` is out of
range it is reset to 0 and the subsequent `vsnprintf` overwrites the buffer
from the start; otherwise the message is appended after the banner.  Either
way at most `SKR_LAST_ERROR_SIZE - 1` characters are stored. -/
def m_skr_last_error_set_with_meta (file : List Char) (line : Nat) (func : List Char)
    (msg : List Char) : ErrBuf :=
  let banner := skrErrMetaBanner file line func
  if banner.length < SKR_LAST_ERROR_SIZE then
    (banner ++ msg).take (SKR_LAST_ERROR_SIZE - 1)
  else
    msg.take (SKR_LAST_ERROR_SIZE - 1)

/-- The `m_skr_last_error_set(...)` macro: `set_with_meta(__FILE__, __LINE__,
__func__, ...)`.  The file is always `skr.h`; the call-site line is kept as a
parameter and the function name is passed by each modelled caller. -/
def m_skr_last_error_set (line : Nat) (func : List Char) (msg : List Char) : ErrBuf :=
  m_skr_last_error_set_with_meta ("skr.h".toList) line func msg

/-! ## First-person camera (skr.h lines 491-727) -/

/-- The scalar fields of `SkrCamera` read and written by the mouse callback.
`Front`/`Right`/`Up`/`Position`/`FOV` are not touched by the modelled
control flow except for the front recomputation, which is expressed by
`cameraFront` below as a function of the final yaw and pitch. -/
structure SkrCamera where
  Yaw : ℚ
  Pitch : ℚ
  Sensitivity : ℚ
  LastX : ℚ
  LastY : ℚ
  FirstMouse : Bool
deriving DecidableEq, Repr

/-- `m_skr_gl_glfw_mouse_callback` (skr.h lines 686-727) acting on the scalar
camera state: first-mouse priming, delta computation with inverted Y,
sensitivity scaling, yaw/pitch accumulation and the pitch clamp. -/
def m_skr_gl_glfw_mouse_callback (c : SkrCamera) (xpos ypos : ℚ) : SkrCamera :=
  let c :=
    if c.FirstMouse then
      { c with LastX := xpos, LastY := ypos, FirstMouse := false }
    else c
  let xoffset := xpos - c.LastX
  let yoffset := c.LastY - ypos
  let c := { c with LastX := xpos, LastY := ypos }
  let xoffset := xoffset * c.Sensitivity
  let yoffset := yoffset * c.Sensitivity
  let yaw := c.Yaw + xoffset
  let pitch := c.Pitch + yoffset
  let pitch := if pitch > 89 then (89 : ℚ) else pitch
  let pitch := if pitch < -89 then (-89 : ℚ) else pitch
  { c with Yaw := yaw, Pitch := pitch }

/-- `glm_rad`: degrees to radians. -/
noncomputable def glm_rad (x : ℝ) : ℝ := x * Real.pi / 180

/-- The spherical front direction computed by the mouse callback before
normalization: `(cos yaw * cos pitch, sin pitch, sin yaw * cos pitch)`
with both angles in degrees. -/
noncomputable def cameraFront (yaw pitch : ℝ) : ℝ × ℝ × ℝ :=
  (Real.cos (glm_rad yaw) * Real.cos (glm_rad pitch),
   Real.sin (glm_rad pitch),
   Real.sin (glm_rad yaw) * Real.cos (glm_rad pitch))

/-- Euclidean norm of a 3-vector. -/
noncomputable def vec3norm (v : ℝ × ℝ × ℝ) : ℝ :=
  Real.sqrt (v.1 ^ 2 + v.2.1 ^ 2 + v.2.2 ^ 2)

/-- `glm_vec3_normalize_to`: cglm zeroes the destination when the norm is zero
and otherwise scales by the reciprocal norm. -/
noncomputable def glm_vec3_normalize_to (v : ℝ × ℝ × ℝ) : ℝ × ℝ × ℝ :=
  if vec3norm v = 0 then (0, 0, 0)
  else (v.1 / vec3norm v, v.2.1 / vec3norm v, v.2.2 / vec3norm v)

/-! ## Backend oracle, GL object names and call trace -/

/-- One observable call into the OpenGL / GLFW backend (or the file system). -/
inductive Event where
  | createShader (id ty : Nat)
  | deleteShader (id : Nat)
  | readFile (path : List Char)
  | createProgram (id : Nat)
  | attachShader (prog id : Nat)
  | linkProgram (id : Nat)
  | detachShader (prog id : Nat)
  | deleteProgram (id : Nat)
  | inputHandler
  | pollEvents
  | getFramebufferSize
  | clearBuffers
  | useProgram (id : Nat)
  | bindVertexArray (id : Nat)
  | drawArrays (count : Nat)
  | swapBuffers
  | deleteTexture (id : Nat)
  | deleteVertexArray (id : Nat)
  | deleteBuffer (id : Nat)
  | bindBuffer (target id : Nat)
deriving DecidableEq, Repr

/-- Oracle for the external collaborators: which `(type, source)` pairs the GL
compiler accepts, which shader-handle batches link, and which files are
readable (returning their contents). -/
structure GLEnv where
  compileOk : Nat → List Char → Bool
  linkOk : List Nat → Bool
  files : List Char → Option (List Char)

/-- The mutable state threaded through every modelled call: the error buffer,
the GL object-name counters, and the backend call trace (oldest first). -/
structure GLState where
  err : ErrBuf
  nextShader : Nat
  nextProgram : Nat
  trace : List Event
deriving DecidableEq, Repr

/-- Append backend calls to the trace. -/
def emitAll (es : List Event) (st : GLState) : GLState :=
  { st with trace := st.trace ++ es }

/-- GL shader-type enumerants used by the engine. -/
def GL_VERTEX_SHADER : Nat := 35633
def GL_FRAGMENT_SHADER : Nat := 35632
def GL_GEOMETRY_SHADER : Nat := 36313
def GL_ARRAY_BUFFER : Nat := 34962
def GL_ELEMENT_ARRAY_BUFFER : Nat := 34963

/-- `glCreateShader`: issues a fresh nonzero shader name. -/
def glCreateShader (ty : Nat) (st : GLState) : Nat × GLState :=
  let h := st.nextShader + 1
  (h, { st with nextShader := h, trace := st.trace ++ [.createShader h ty] })

/-- The `switch (type)` of `m_skr_gl_create_shader` choosing the short label.
The current header maps vertex, fragment and geometry shaders and sends
everything else to `unknown`. -/
def shaderTypeLabel (ty : Nat) : List Char :=
  if ty = GL_VERTEX_SHADER then ("vert".toList)
  else if ty = GL_FRAGMENT_SHADER then ("frag".toList)
  else if ty = GL_GEOMETRY_SHADER then ("geom".toList)
  else ("unknown".toList)

/-- `m_skr_gl_check_compile_errors` (skr.h lines 783-809): queries the link
status when the label is `prog`, the compile status otherwise, and on failure
formats the diagnostic into the error channel.  The status bit is supplied by
the caller from the oracle; the backend info log is abstracted by the label. -/
def m_skr_gl_check_compile_errors (success : Bool) (ty_str : List Char)
    (st : GLState) : Bool × GLState :=
  if ty_str = "prog".toList then
    if !success then
      (false, { st with err := (m_skr_last_error_set 793
                  ("m_skr_gl_check_compile_errors".toList)
                  ("failed to link ".toList ++ ty_str)) })
    else (true, st)
  else
    if !success then
      (false, { st with err := (m_skr_last_error_set 802
                  ("m_skr_gl_check_compile_errors".toList)
                  ("failed to compile ".toList ++ ty_str)) })
    else (true, st)

/-- `m_skr_gl_create_shader` (skr.h lines 820-849): create the GL shader
object, compile, check; on failure delete the object and return 0, on success
clear the channel and return the handle. -/
def m_skr_gl_create_shader (env : GLEnv) (ty : Nat) (source : List Char)
    (st : GLState) : Nat × GLState :=
  let p := glCreateShader ty st
  let shader := p.1
  let st := p.2
  let success := env.compileOk ty source
  let q := m_skr_gl_check_compile_errors success (shaderTypeLabel ty) st
  if !q.1 then
    (0, emitAll [.deleteShader shader] q.2)
  else
    (shader, { q.2 with err := m_skr_last_error_clear q.2.err })

/-- `m_skr_read_file` (skr.h lines 629-653): open/read the file; on failure set
the channel and return NULL, on success clear it and return the buffer.  The
`malloc` failure branch is not modelled. -/
def m_skr_read_file (env : GLEnv) (path : List Char) (st : GLState) :
    Option (List Char) × GLState :=
  let st := emitAll [.readFile path] st
  match env.files path with
  | none =>
      (none, { st with err := (m_skr_last_error_set 632
                 ("m_skr_read_file".toList) ("failed to open".toList)) })
  | some buffer =>
      (some buffer, { st with err := m_skr_last_error_clear st.err })

/-- `m_skr_gl_create_shader_from_file` (skr.h lines 862-874): read then
compile; the source buffer is freed either way, and the error channel is
cleared unconditionally before returning the compile result. -/
def m_skr_gl_create_shader_from_file (env : GLEnv) (ty : Nat) (path : List Char)
    (st : GLState) : Nat × GLState :=
  match m_skr_read_file env path st with
  | (none, st) => (0, st)
  | (some source, st) =>
      let p := m_skr_gl_create_shader env ty source st
      (p.1, { p.2 with err := m_skr_last_error_clear p.2.err })

/-- `m_skr_gl_create_program` (skr.h lines 887-907): create a program, attach
every shader, link; on failure delete the program and return 0, on success
detach and delete every shader, clear the channel and return the program. -/
def m_skr_gl_create_program (env : GLEnv) (shaders : List Nat) (st : GLState) :
    Nat × GLState :=
  let program := st.nextProgram + 1
  let st := { st with nextProgram := program,
                      trace := st.trace ++ [.createProgram program] }
  let st := shaders.foldl (fun acc h => emitAll [.attachShader program h] acc) st
  let st := emitAll [.linkProgram program] st
  let q := m_skr_gl_check_compile_errors (env.linkOk shaders) "prog".toList st
  if !q.1 then
    (0, emitAll [.deleteProgram program] q.2)
  else
    let st := shaders.foldl
      (fun acc h => emitAll [.detachShader program h, .deleteShader h] acc) q.2
    (program, { st with err := m_skr_last_error_clear st.err })

/-! ## Shader descriptors and `m_skr_gl_create_program_from_shaders` -/

/-- `SkrShader`: the descriptor `{Type, Source, Path}`.  The C field `Type` is
spelled `Typ` because `Type` is reserved in Lean. -/
structure SkrShader where
  Typ : Nat
  Source : Option (List Char)
  Path : Option (List Char)
deriving DecidableEq, Repr

/-- The descriptor-resolution step of the loop body of
`m_skr_gl_create_program_from_shaders` (skr.h lines 932-941): compile from
`Source` when present, otherwise from `Path`; `none` reports that both are
absent. -/
def resolveShaderDesc (env : GLEnv) (d : SkrShader) (st : GLState) :
    Option Nat × GLState :=
  match d.Source with
  | some src =>
      let p := m_skr_gl_create_shader env d.Typ src st
      (some p.1, p.2)
  | none =>
      match d.Path with
      | some path =>
          let p := m_skr_gl_create_shader_from_file env d.Typ path st
          (some p.1, p.2)
      | none => (none, st)

/-- The cleanup `for (j = 0; j < i; ++j) glDeleteShader(shaders[j]);`. -/
def deleteShaders (hs : List Nat) (st : GLState) : GLState :=
  hs.foldl (fun acc h => emitAll [.deleteShader h] acc) st

/-- The compile loop of `m_skr_gl_create_program_from_shaders` (skr.h lines
932-960): `acc` holds the handles compiled so far (the `shaders` array).  A
descriptor with neither `Source` nor `Path` deletes the previous handles and
sets the error; a failed compile deletes the previous handles with the error
channel left as the callee produced it. -/
def buildLoop (env : GLEnv) : List SkrShader → List Nat → GLState →
    Option (List Nat) × GLState
  | [], acc, st => (some acc, st)
  | d :: rest, acc, st =>
      match resolveShaderDesc env d st with
      | (none, st) =>
          let st := deleteShaders acc st
          (none, { st with err := (m_skr_last_error_set 946
                     ("m_skr_gl_create_program_from_shaders".toList)
                     ("shader.Source and shader.Path are NULL".toList)) })
      | (some shader, st) =>
          if shader = 0 then
            (none, deleteShaders acc st)
          else
            buildLoop env rest (acc ++ [shader]) st

/-- `m_skr_gl_create_program_from_shaders` (skr.h lines 918-971).  The NULL
`shaders_input` pointer and the zero count are both represented by the empty
descriptor list; the `malloc` failure branch is not modelled. -/
def m_skr_gl_create_program_from_shaders (env : GLEnv) (descs : List SkrShader)
    (st : GLState) : Nat × GLState :=
  if descs.isEmpty then
    (0, { st with err := (m_skr_last_error_set 922
          ("m_skr_gl_create_program_from_shaders".toList)
          ("either shaders_input != 1 or count == 0".toList)) })
  else
    match buildLoop env descs [] st with
    | (none, st) => (0, st)
    | (some handles, st) =>
        let p := m_skr_gl_create_program env handles st
        if p.1 = 0 then (0, p.2)
        else (p.1, { p.2 with err := m_skr_last_error_clear p.2.err })

/-! ## Engine state, draw pass, teardown and frame loop -/

/-- The fields of `SkrMesh` the renderer and teardown read or write: the three
GPU buffer handles, the vertex count, the texture IDs (`none` models a NULL
`Textures` pointer; the list length models `TextureCount`) and the
`Backend.GL.Program` handle. -/
structure SkrMesh where
  VAO : Nat
  VBO : Nat
  EBO : Nat
  VertexCount : Nat
  Textures : Option (List Nat)
  Program : Nat
deriving DecidableEq, Repr

/-- `SkrModel`: `none` for `Meshes` models a NULL meshes pointer. -/
structure SkrModel where
  Meshes : Option (List SkrMesh)
deriving DecidableEq, Repr

/-- The fields of `SkrWindow` the frame loop touches.  The input handler is an
external callback; only its presence is modelled, its invocation is recorded
as an `Event`. -/
structure SkrWindow where
  Width : Int
  Height : Int
  hasInputHandler : Bool
deriving DecidableEq, Repr

/-- `SkrState`: `none` for `Window` models a NULL window pointer. -/
structure SkrState where
  Window : Option SkrWindow
  Models : List SkrModel
deriving DecidableEq, Repr

/-- Per-frame oracle: the framebuffer size `glfwGetFramebufferSize` reports. -/
structure FrameEnv where
  fbW : Int
  fbH : Int

/-- The inner mesh loop of `m_skr_gl_renderer_render` (skr.h lines 1074-1083):
meshes with a zero VAO or a zero vertex count are skipped; the rest bind their
program and vertex array and issue a non-indexed draw. -/
def drawMeshes : List SkrMesh → GLState → GLState
  | [], st => st
  | m :: rest, st =>
      let st :=
        if m.VAO = 0 || m.VertexCount = 0 then st
        else emitAll [.useProgram m.Program, .bindVertexArray m.VAO,
                      .drawArrays m.VertexCount] st
      drawMeshes rest st

/-- The model loop of `m_skr_gl_renderer_render`: models with a NULL meshes
pointer are skipped. -/
def drawModels : List SkrModel → GLState → GLState
  | [], st => st
  | mo :: rest, st =>
      let st :=
        match mo.Meshes with
        | none => st
        | some ms => drawMeshes ms st
      drawModels rest st

/-- `m_skr_gl_renderer_render` (skr.h lines 1066-1087): clear color+depth,
draw every eligible mesh, and unbind the vertex array at the end. -/
def m_skr_gl_renderer_render (s : SkrState) (st : GLState) : GLState :=
  let st := emitAll [.clearBuffers] st
  let st := drawModels s.Models st
  emitAll [.bindVertexArray 0] st

/-- The per-mesh teardown body of `m_skr_gl_renderer_finalize` (skr.h lines
1104-1124): delete the textures when the array is present and nonempty, delete
each of VAO/VBO/EBO only when nonzero, then zero the three handles and the
program field. -/
def finalizeMesh (m : SkrMesh) (st : GLState) : SkrMesh × GLState :=
  let st :=
    match m.Textures with
    | some ts =>
        if ts.length > 0 then ts.foldl (fun acc t => emitAll [.deleteTexture t] acc) st
        else st
    | none => st
  let st := if m.VAO ≠ 0 then emitAll [.deleteVertexArray m.VAO] st else st
  let st := if m.VBO ≠ 0 then emitAll [.deleteBuffer m.VBO] st else st
  let st := if m.EBO ≠ 0 then emitAll [.deleteBuffer m.EBO] st else st
  ({ m with VAO := 0, VBO := 0, EBO := 0, Program := 0 }, st)

/-- The mesh loop of `m_skr_gl_renderer_finalize`. -/
def finalizeMeshes : List SkrMesh → GLState → List SkrMesh × GLState
  | [], st => ([], st)
  | m :: rest, st =>
      let p := finalizeMesh m st
      let q := finalizeMeshes rest p.2
      (p.1 :: q.1, q.2)

/-- The model loop of `m_skr_gl_renderer_finalize`: models with a NULL meshes
pointer are skipped. -/
def finalizeModels : List SkrModel → GLState → List SkrModel × GLState
  | [], st => ([], st)
  | mo :: rest, st =>
      match mo.Meshes with
      | none =>
          let q := finalizeModels rest st
          (mo :: q.1, q.2)
      | some ms =>
          let p := finalizeMeshes ms st
          let q := finalizeModels rest p.2
          ({ mo with Meshes := some p.1 } :: q.1, q.2)

/-- `m_skr_gl_renderer_finalize` (skr.h lines 1095-1131): NULL-guarded sweep
over every mesh of every model, followed by a defensive unbind of the vertex
array, both buffer targets and the program. -/
def m_skr_gl_renderer_finalize (os : Option SkrState) (st : GLState) :
    Option SkrState × GLState :=
  match os with
  | none => (none, st)
  | some s =>
      let p := finalizeModels s.Models st
      let st := emitAll [.bindVertexArray 0, .bindBuffer GL_ARRAY_BUFFER 0,
                         .bindBuffer GL_ELEMENT_ARRAY_BUFFER 0, .useProgram 0] p.2
      (some { s with Models := p.1 }, st)

/-- `m_skr_gl_glfw_renderer_render` (skr.h lines 1147-1160): invoke the input
handler when installed, re-query the framebuffer size into the window, run the
draw pass, swap buffers, and poll events last.  The window is dereferenced
unguarded in C; the `none` branch is unreachable through `SkrRendererRender`. -/
def m_skr_gl_glfw_renderer_render (env : FrameEnv) (s : SkrState) (st : GLState) :
    SkrState × GLState :=
  match s.Window with
  | none => (s, st)
  | some w =>
      let st := if w.hasInputHandler then emitAll [.inputHandler] st else st
      let st := emitAll [.getFramebufferSize] st
      let w := { w with Width := env.fbW, Height := env.fbH }
      let s := { s with Window := some w }
      let st := m_skr_gl_renderer_render s st
      let st := emitAll [.swapBuffers] st
      let st := emitAll [.pollEvents] st
      (s, st)

/-- `SkrRendererRender` (skr.h lines 1268-1277): the public entry point,
returning immediately when the state pointer or its window is NULL; with the
default build configuration (OpenGL + GLFW) it otherwise delegates to
`m_skr_gl_glfw_renderer_render`. -/
def SkrRendererRender (env : FrameEnv) (os : Option SkrState) (st : GLState) :
    Option SkrState × GLState :=
  match os with
  | none => (none, st)
  | some s =>
      match s.Window with
      | none => (some s, st)
      | some _ =>
          let p := m_skr_gl_glfw_renderer_render env s st
          (some p.1, p.2)

/-! ## Trace descriptors used by the claims -/

/-- Whether a descriptor resolves and compiles successfully under the oracle:
an in-memory source must compile; a path must be readable and its contents
must compile; a descriptor with neither fails. -/
def descOk (env : GLEnv) (d : SkrShader) : Bool :=
  match d.Source with
  | some src => env.compileOk d.Typ src
  | none =>
      match d.Path with
      | some path =>
          match env.files path with
          | some src => env.compileOk d.Typ src
          | none => false
      | none => false

/-- The backend calls a successfully resolved descriptor performs when its
shader object receives the name `h`. -/
def okDescEvents (d : SkrShader) (h : Nat) : List Event :=
  match d.Source with
  | some _ => [.createShader h d.Typ]
  | none =>
      match d.Path with
      | some path => [.readFile path, .createShader h d.Typ]
      | none => []

/-- The backend calls of a prefix of successfully resolved descriptors, whose
shader objects receive the names `n+1, n+2, ...` in order. -/
def okBatchEvents : List SkrShader → Nat → List Event
  | [], _ => []
  | d :: rest, n => okDescEvents d (n + 1) ++ okBatchEvents rest (n + 1)

/-- The backend calls of the first failing descriptor, when the next fresh
shader name would be `h`: a failing in-memory compile creates and deletes its
own shader object; an unreadable path only reads; a readable path whose
contents fail to compile reads, creates and deletes; a descriptor with neither
source nor path performs no backend call. -/
def failDescEvents (env : GLEnv) (d : SkrShader) (h : Nat) : List Event :=
  match d.Source with
  | some _ => [.createShader h d.Typ, .deleteShader h]
  | none =>
      match d.Path with
      | some path =>
          match env.files path with
          | some _ => [.readFile path, .createShader h d.Typ, .deleteShader h]
          | none => [.readFile path]
      | none => []

/-- The shader names `n+1, ..., n+k` handed out to `k` consecutive successful
compiles started at counter value `n`. -/
def handleRange (n : Nat) : Nat → List Nat
  | 0 => []
  | k + 1 => (n + 1) :: handleRange (n + 1) k

/-- The shader-object deletions in a trace whose name is at most `bound`, in
trace order. -/
def batchDeletes (bound : Nat) (tr : List Event) : List Nat :=
  tr.filterMap fun e =>
    match e with
    | .deleteShader i => if i ≤ bound then some i else none
    | _ => none

/-- Recognizer for shader-object creation events. -/
def isCreateShaderEv (e : Event) : Bool :=
  match e with
  | .createShader _ _ => true
  | _ => false

/-- Recognizer for file reads. -/
def isReadFileEv (e : Event) : Bool :=
  match e with
  | .readFile _ => true
  | _ => false

/-- Recognizer for the buffer/vertex-array deletions of the teardown. -/
def isBufferDeleteEv (e : Event) : Bool :=
  match e with
  | .deleteVertexArray _ => true
  | .deleteBuffer _ => true
  | _ => false

/-- The draw-pass calls of one mesh. -/
def meshDrawEvents (m : SkrMesh) : List Event :=
  if m.VAO = 0 || m.VertexCount = 0 then []
  else [.useProgram m.Program, .bindVertexArray m.VAO, .drawArrays m.VertexCount]

/-- The draw-pass calls of a mesh list. -/
def meshesDrawEvents : List SkrMesh → List Event
  | [] => []
  | m :: rest => meshDrawEvents m ++ meshesDrawEvents rest

/-- The draw-pass calls of a model list. -/
def modelsDrawEvents : List SkrModel → List Event
  | [] => []
  | mo :: rest =>
      (match mo.Meshes with
       | none => []
       | some ms => meshesDrawEvents ms) ++ modelsDrawEvents rest

/-- All calls of the `renderAll` draw pass `m_skr_gl_renderer_render`. -/
def renderEvents (s : SkrState) : List Event :=
  [.clearBuffers] ++ modelsDrawEvents s.Models ++ [.bindVertexArray 0]

/-! ## Concrete fixtures for witness evaluations -/

/-- Test oracle: a source compiles iff it is exactly `good`; linking always
succeeds; the file `f.glsl` holds the source `bad` (which does not compile)
and every other path is unreadable. -/
def skrTestEnv : GLEnv :=
  { compileOk := fun _ src => src == "good".toList
    linkOk := fun _ => true
    files := fun p => if p == "f.glsl".toList then some ("bad".toList) else none }

/-- Fresh backend state: no error, no objects issued, empty trace. -/
def skrTestState : GLState :=
  { err := [], nextShader := 0, nextProgram := 0, trace := [] }

/-- A vertex-shader descriptor with a compiling in-memory source. -/
def skrGoodVert : SkrShader := ⟨GL_VERTEX_SHADER, some ("good".toList), none⟩

/-- A fragment-shader descriptor with a non-compiling in-memory source. -/
def skrBadFrag : SkrShader := ⟨GL_FRAGMENT_SHADER, some ("bad".toList), none⟩

/-- A fragment-shader descriptor naming a readable file whose contents fail to
compile. -/
def skrFileFrag : SkrShader := ⟨GL_FRAGMENT_SHADER, none, some ("f.glsl".toList)⟩

/-- A descriptor with neither `Source` nor `Path`. -/
def skrNullDesc : SkrShader := ⟨GL_FRAGMENT_SHADER, none, none⟩

/-- A window fixture with an installed input handler. -/
def skrTestWindow : SkrWindow := ⟨800, 600, true⟩

/-- An engine-state fixture wrapping `skrTestWindow` with no models. -/
def skrTestEngineState : SkrState := ⟨some skrTestWindow, []⟩

/-- A frame oracle reporting a 640x480 framebuffer. -/
def skrTestFrameEnv : FrameEnv := ⟨640, 480⟩

/-- A pinned-pitch camera fixture: pitch 88, sensitivity 1, last Y 10, past
the first mouse event. -/
def skrTestCamera : SkrCamera := ⟨0, 88, 1, 0, 10, false⟩

/-- A first-mouse camera fixture whose pitch 100 lies outside the documented
range. -/
def skrTestCameraOut : SkrCamera := ⟨0, 100, 1, 0, 0, true⟩

/-- A first-mouse camera fixture with an in-range pitch. -/
def skrTestCameraFirst : SkrCamera := ⟨0, 0, 1, 0, 0, true⟩

/-- A descriptor carrying both an in-memory source and a file path. -/
def skrBothDesc : SkrShader :=
  ⟨GL_VERTEX_SHADER, some ("good".toList), some ("f.glsl".toList)⟩

/-- A mesh is fully torn down when its three buffer handles and its program
handle are zero. -/
def meshHandlesZero (m : SkrMesh) : Prop :=
  m.VAO = 0 ∧ m.VBO = 0 ∧ m.EBO = 0 ∧ m.Program = 0

/-- Every mesh of every model of the state is fully torn down. -/
def stateMeshesZero (s : SkrState) : Prop :=
  ∀ mo ∈ s.Models, ∀ m ∈ mo.Meshes.getD [], meshHandlesZero m

/-- An engine-state fixture whose single mesh is already torn down but still
lists one texture ID. -/
def skrZeroedState : SkrState :=
  ⟨none, [⟨some [⟨0, 0, 0, 3, some [7], 0⟩]⟩]⟩

/-! ## Helper lemmas -/

lemma vec3norm_cameraFront (yaw pitch : ℝ) : vec3norm (cameraFront yaw pitch) = 1 := by
  unfold vec3norm cameraFront
  have ha := Real.sin_sq_add_cos_sq (glm_rad yaw)
  have hb := Real.sin_sq_add_cos_sq (glm_rad pitch)
  have h : (Real.cos (glm_rad yaw) * Real.cos (glm_rad pitch)) ^ 2
      + Real.sin (glm_rad pitch) ^ 2
      + (Real.sin (glm_rad yaw) * Real.cos (glm_rad pitch)) ^ 2 = 1 := by
    nlinarith [ha, hb]
  rw [h, Real.sqrt_one]

lemma vec3norm_normalize_cameraFront (yaw pitch : ℝ) :
    vec3norm (glm_vec3_normalize_to (cameraFront yaw pitch)) = 1 := by
  unfold glm_vec3_normalize_to
  rw [vec3norm_cameraFront]
  simp [vec3norm_cameraFront yaw pitch]

lemma emitAll_nil (st : GLState) : emitAll [] st = st := by
  simp [emitAll]

lemma emitAll_emitAll (es es2 : List Event) (st : GLState) :
    emitAll es2 (emitAll es st) = emitAll (es ++ es2) st := by
  simp [emitAll]

lemma emitAll_err (es : List Event) (st : GLState) : (emitAll es st).err = st.err := by
  simp [emitAll]

lemma emitAll_trace (es : List Event) (st : GLState) :
    (emitAll es st).trace = st.trace ++ es := by
  simp [emitAll]

lemma deleteShaders_eq (hs : List Nat) (st : GLState) :
    deleteShaders hs st = emitAll (hs.map Event.deleteShader) st := by
  induction hs generalizing st with
  | nil => simp [deleteShaders, emitAll]
  | cons h rest ih =>
      simp only [deleteShaders, List.foldl_cons] at *
      rw [ih, emitAll_emitAll]
      simp

lemma shaderTypeLabel_ne_prog (ty : Nat) : shaderTypeLabel ty ≠ "prog".toList := by
  unfold shaderTypeLabel
  split_ifs <;> decide

lemma descOk_source (env : GLEnv) (d : SkrShader) (src : List Char)
    (hs : d.Source = some src) : descOk env d = env.compileOk d.Typ src := by
  simp [descOk, hs]

lemma check_compile_errors_shader_ok (ty_str : List Char) (st : GLState)
    (h : ty_str ≠ "prog".toList) :
    m_skr_gl_check_compile_errors true ty_str st = (true, st) := by
  simp only [m_skr_gl_check_compile_errors]
  rw [if_neg h]
  simp

lemma check_compile_errors_shader_fail (ty_str : List Char) (st : GLState)
    (h : ty_str ≠ "prog".toList) :
    m_skr_gl_check_compile_errors false ty_str st =
      (false, { st with err := (m_skr_last_error_set 802 ("m_skr_gl_check_compile_errors".toList) (("failed to compile ".toList) ++ ty_str)) }) := by
  simp only [m_skr_gl_check_compile_errors]
  rw [if_neg h]
  simp

lemma create_shader_ok (env : GLEnv) (ty : Nat) (source : List Char) (st : GLState)
    (hc : env.compileOk ty source = true) :
    m_skr_gl_create_shader env ty source st =
      (st.nextShader + 1,
       { st with nextShader := st.nextShader + 1, err := [],
                 trace := st.trace ++ [.createShader (st.nextShader + 1) ty] }) := by
  simp only [m_skr_gl_create_shader, glCreateShader, hc]
  rw [check_compile_errors_shader_ok _ _ (shaderTypeLabel_ne_prog ty)]
  simp [m_skr_last_error_clear]

lemma create_shader_fail (env : GLEnv) (ty : Nat) (source : List Char) (st : GLState)
    (hc : env.compileOk ty source = false) :
    m_skr_gl_create_shader env ty source st =
      (0,
       { st with nextShader := st.nextShader + 1,
                 err := (m_skr_last_error_set 802 ("m_skr_gl_check_compile_errors".toList) (("failed to compile ".toList) ++ shaderTypeLabel ty)),
                 trace := st.trace ++ [.createShader (st.nextShader + 1) ty, .deleteShader (st.nextShader + 1)] }) := by
  simp only [m_skr_gl_create_shader, glCreateShader, hc]
  rw [check_compile_errors_shader_fail _ _ (shaderTypeLabel_ne_prog ty)]
  simp [emitAll]

lemma read_file_some (env : GLEnv) (path : List Char) (st : GLState)
    (buffer : List Char) (hf : env.files path = some buffer) :
    m_skr_read_file env path st =
      (some buffer,
       { st with err := [], trace := st.trace ++ [.readFile path] }) := by
  simp [m_skr_read_file, hf, emitAll, m_skr_last_error_clear]

lemma read_file_none (env : GLEnv) (path : List Char) (st : GLState)
    (hf : env.files path = none) :
    m_skr_read_file env path st =
      (none,
       { st with err := (m_skr_last_error_set 632 ("m_skr_read_file".toList) ("failed to open".toList)),
                 trace := st.trace ++ [.readFile path] }) := by
  simp [m_skr_read_file, hf, emitAll]

lemma create_shader_from_file_read_fail (env : GLEnv) (ty : Nat) (path : List Char)
    (st : GLState) (hf : env.files path = none) :
    m_skr_gl_create_shader_from_file env ty path st =
      (0,
       { st with err := (m_skr_last_error_set 632 ("m_skr_read_file".toList) ("failed to open".toList)),
                 trace := st.trace ++ [.readFile path] }) := by
  simp [m_skr_gl_create_shader_from_file, read_file_none env path st hf]

lemma create_shader_from_file_compile_ok (env : GLEnv) (ty : Nat) (path : List Char)
    (st : GLState) (src : List Char) (hf : env.files path = some src)
    (hc : env.compileOk ty src = true) :
    m_skr_gl_create_shader_from_file env ty path st =
      (st.nextShader + 1,
       { st with nextShader := st.nextShader + 1, err := [],
                 trace := st.trace ++ [.readFile path, .createShader (st.nextShader + 1) ty] }) := by
  simp [m_skr_gl_create_shader_from_file, read_file_some env path st src hf,
        create_shader_ok, hc, m_skr_last_error_clear]

lemma create_shader_from_file_compile_fail (env : GLEnv) (ty : Nat) (path : List Char)
    (st : GLState) (src : List Char) (hf : env.files path = some src)
    (hc : env.compileOk ty src = false) :
    m_skr_gl_create_shader_from_file env ty path st =
      (0,
       { st with nextShader := st.nextShader + 1, err := [],
                 trace := st.trace ++ [.readFile path, .createShader (st.nextShader + 1) ty, .deleteShader (st.nextShader + 1)] }) := by
  simp [m_skr_gl_create_shader_from_file, read_file_some env path st src hf,
        create_shader_fail, hc, m_skr_last_error_clear]

lemma resolveShaderDesc_ok (env : GLEnv) (d : SkrShader) (st : GLState)
    (h : descOk env d = true) :
    resolveShaderDesc env d st =
      (some (st.nextShader + 1),
       { st with nextShader := st.nextShader + 1, err := [],
                 trace := st.trace ++ okDescEvents d (st.nextShader + 1) }) := by
  cases hs : d.Source with
  | some src =>
      have hc : env.compileOk d.Typ src = true := by
        simpa [descOk, hs] using h
      simp [resolveShaderDesc, hs, create_shader_ok env d.Typ src st hc,
            okDescEvents]
  | none =>
      cases hp : d.Path with
      | some path =>
          cases hf : env.files path with
          | some src =>
              have hc : env.compileOk d.Typ src = true := by
                simpa [descOk, hs, hp, hf] using h
              simp [resolveShaderDesc, hs, hp, okDescEvents,
                    create_shader_from_file_compile_ok env d.Typ path st src hf hc]
          | none =>
              exfalso
              simp [descOk, hs, hp, hf] at h
      | none =>
          exfalso
          simp [descOk, hs, hp] at h

lemma resolveShaderDesc_fail_fst (env : GLEnv) (d : SkrShader) (st : GLState)
    (h : descOk env d = false) (hnn : d.Source ≠ none ∨ d.Path ≠ none) :
    (resolveShaderDesc env d st).1 = some 0 := by
  cases hs : d.Source with
  | some src =>
      have hc : env.compileOk d.Typ src = false := by
        simpa [descOk, hs] using h
      simp [resolveShaderDesc, hs, create_shader_fail env d.Typ src st hc]
  | none =>
      cases hp : d.Path with
      | some path =>
          cases hf : env.files path with
          | some src =>
              have hc : env.compileOk d.Typ src = false := by
                simpa [descOk, hs, hp, hf] using h
              simp [resolveShaderDesc, hs, hp,
                    create_shader_from_file_compile_fail env d.Typ path st src hf hc]
          | none =>
              simp [resolveShaderDesc, hs, hp,
                    create_shader_from_file_read_fail env d.Typ path st hf]
      | none =>
          rcases hnn with hnn | hnn
          · exact absurd hs hnn
          · exact absurd hp hnn

lemma resolveShaderDesc_fail_trace (env : GLEnv) (d : SkrShader) (st : GLState)
    (h : descOk env d = false) (hnn : d.Source ≠ none ∨ d.Path ≠ none) :
    (resolveShaderDesc env d st).2.trace =
      st.trace ++ failDescEvents env d (st.nextShader + 1) := by
  cases hs : d.Source with
  | some src =>
      have hc : env.compileOk d.Typ src = false := by
        simpa [descOk, hs] using h
      simp [resolveShaderDesc, hs, create_shader_fail env d.Typ src st hc,
            failDescEvents]
  | none =>
      cases hp : d.Path with
      | some path =>
          cases hf : env.files path with
          | some src =>
              have hc : env.compileOk d.Typ src = false := by
                simpa [descOk, hs, hp, hf] using h
              simp [resolveShaderDesc, hs, hp, hf, failDescEvents,
                    create_shader_from_file_compile_fail env d.Typ path st src hf hc]
          | none =>
              simp [resolveShaderDesc, hs, hp, hf, failDescEvents,
                    create_shader_from_file_read_fail env d.Typ path st hf]
      | none =>
          rcases hnn with hnn | hnn
          · exact absurd hs hnn
          · exact absurd hp hnn

lemma resolveShaderDesc_both_none (env : GLEnv) (d : SkrShader) (st : GLState)
    (hs : d.Source = none) (hp : d.Path = none) :
    resolveShaderDesc env d st = (none, st) := by
  simp [resolveShaderDesc, hs, hp]

lemma buildLoop_first_fail (env : GLEnv) (d : SkrShader) (rest : List SkrShader)
    (hd : descOk env d = false) :
    ∀ (pre : List SkrShader) (acc : List Nat) (st : GLState),
    (∀ x ∈ pre, descOk env x = true) →
    (buildLoop env (pre ++ d :: rest) acc st).1 = none ∧
    (buildLoop env (pre ++ d :: rest) acc st).2.trace =
      st.trace ++ (okBatchEvents pre st.nextShader
        ++ failDescEvents env d (st.nextShader + pre.length + 1)
        ++ (acc ++ handleRange st.nextShader pre.length).map Event.deleteShader) := by
  intro pre
  induction pre with
  | nil =>
      intro acc st _
      by_cases hsn : d.Source = none ∧ d.Path = none
      · obtain ⟨h1, h2⟩ := hsn
        have hres := resolveShaderDesc_both_none env d st h1 h2
        constructor
        · simp [buildLoop, hres]
        · simp [buildLoop, hres, deleteShaders_eq, emitAll, okBatchEvents,
                failDescEvents, h1, h2, handleRange]
      · have hnn : d.Source ≠ none ∨ d.Path ≠ none := by tauto
        have h1 := resolveShaderDesc_fail_fst env d st hd hnn
        have h2 := resolveShaderDesc_fail_trace env d st hd hnn
        have hres : resolveShaderDesc env d st =
            (some 0, (resolveShaderDesc env d st).2) := by
          rw [← h1]
        constructor
        · simp only [List.nil_append, buildLoop]
          rw [hres]
          simp
        · simp only [List.nil_append, buildLoop]
          rw [hres]
          simp [deleteShaders_eq, emitAll, h2, okBatchEvents, handleRange]
  | cons p pre ih =>
      intro acc st hpre
      have hp : descOk env p = true := hpre p (List.mem_cons_self p pre)
      have hpre2 : ∀ x ∈ pre, descOk env x = true := by
        intro x hx
        exact hpre x (List.mem_cons_of_mem p hx)
      have hres := resolveShaderDesc_ok env p st hp
      have hstep :
          buildLoop env ((p :: pre) ++ d :: rest) acc st =
            buildLoop env (pre ++ d :: rest) (acc ++ [st.nextShader + 1])
              { st with nextShader := st.nextShader + 1, err := [],
                        trace := st.trace ++ okDescEvents p (st.nextShader + 1) } := by
        simp only [List.cons_append, buildLoop, hres]
        simp
      rw [hstep]
      obtain ⟨ha, hb⟩ := ih (acc ++ [st.nextShader + 1])
        { st with nextShader := st.nextShader + 1, err := [],
                  trace := st.trace ++ okDescEvents p (st.nextShader + 1) } hpre2
      refine ⟨ha, ?_⟩
      rw [hb]
      simp only [okBatchEvents, handleRange, List.length_cons]
      have hidx : st.nextShader + 1 + pre.length + 1 =
          st.nextShader + (pre.length + 1) + 1 := by omega
      rw [hidx]
      simp [List.append_assoc]

lemma batchDeletes_append (bound : Nat) (l1 l2 : List Event) :
    batchDeletes bound (l1 ++ l2) = batchDeletes bound l1 ++ batchDeletes bound l2 := by
  simp [batchDeletes, List.filterMap_append]

lemma batchDeletes_okDescEvents (bound : Nat) (d : SkrShader) (h : Nat) :
    batchDeletes bound (okDescEvents d h) = [] := by
  unfold okDescEvents
  cases d.Source with
  | some src => simp [batchDeletes]
  | none =>
      cases d.Path with
      | some path => simp [batchDeletes]
      | none => simp [batchDeletes]

lemma batchDeletes_okBatchEvents (bound : Nat) :
    ∀ (pre : List SkrShader) (n : Nat), batchDeletes bound (okBatchEvents pre n) = [] := by
  intro pre
  induction pre with
  | nil => intro n; simp [okBatchEvents, batchDeletes]
  | cons p pre ih =>
      intro n
      simp [okBatchEvents, batchDeletes_append, batchDeletes_okDescEvents, ih]

lemma batchDeletes_failDescEvents (env : GLEnv) (d : SkrShader) (bound h : Nat)
    (hlt : bound < h) : batchDeletes bound (failDescEvents env d h) = [] := by
  unfold failDescEvents
  have hno : ¬ h ≤ bound := by omega
  cases d.Source with
  | some src => simp [batchDeletes, hno]
  | none =>
      cases d.Path with
      | some path =>
          cases hf : env.files path with
          | some src => simp [batchDeletes, hno, hf]
          | none => simp [batchDeletes, hf]
      | none => simp [batchDeletes]

lemma batchDeletes_map_deleteShader (bound : Nat) :
    ∀ (l : List Nat), (∀ i ∈ l, i ≤ bound) →
      batchDeletes bound (l.map Event.deleteShader) = l := by
  intro l
  induction l with
  | nil => intro _; simp [batchDeletes]
  | cons a l ih =>
      intro hb
      have ha : a ≤ bound := hb a (List.mem_cons_self a l)
      have hl : ∀ i ∈ l, i ≤ bound := fun i hi => hb i (List.mem_cons_of_mem a hi)
      have htail := ih hl
      simp only [batchDeletes] at htail ⊢
      simp [List.filterMap_cons, ha, htail]

lemma handleRange_le : ∀ (k n i : Nat), i ∈ handleRange n k → i ≤ n + k := by
  intro k
  induction k with
  | zero => intro n i hi; simp [handleRange] at hi
  | succ k ih =>
      intro n i hi
      simp only [handleRange, List.mem_cons] at hi
      rcases hi with hi | hi
      · omega
      · have := ih (n + 1) i hi
        omega

lemma countP_okDescEvents_create (d : SkrShader) (h : Nat) :
    (okDescEvents d h).countP isCreateShaderEv ≤ 1 := by
  unfold okDescEvents
  cases d.Source with
  | some src => simp [List.countP_cons, isCreateShaderEv]
  | none =>
      cases d.Path with
      | some path => simp [List.countP_cons, isCreateShaderEv]
      | none => simp

lemma countP_okDescEvents_read (d : SkrShader) (h : Nat) :
    (okDescEvents d h).countP isReadFileEv ≤ 1 := by
  unfold okDescEvents
  cases d.Source with
  | some src => simp [List.countP_cons, isReadFileEv]
  | none =>
      cases d.Path with
      | some path => simp [List.countP_cons, isReadFileEv]
      | none => simp

lemma countP_okBatchEvents_create :
    ∀ (pre : List SkrShader) (n : Nat),
      (okBatchEvents pre n).countP isCreateShaderEv ≤ pre.length := by
  intro pre
  induction pre with
  | nil => intro n; simp [okBatchEvents]
  | cons p pre ih =>
      intro n
      simp only [okBatchEvents, List.countP_append, List.length_cons]
      have h1 := countP_okDescEvents_create p (n + 1)
      have h2 := ih (n + 1)
      omega

lemma countP_okBatchEvents_read :
    ∀ (pre : List SkrShader) (n : Nat),
      (okBatchEvents pre n).countP isReadFileEv ≤ pre.length := by
  intro pre
  induction pre with
  | nil => intro n; simp [okBatchEvents]
  | cons p pre ih =>
      intro n
      simp only [okBatchEvents, List.countP_append, List.length_cons]
      have h1 := countP_okDescEvents_read p (n + 1)
      have h2 := ih (n + 1)
      omega

lemma countP_failDescEvents_create (env : GLEnv) (d : SkrShader) (h : Nat) :
    (failDescEvents env d h).countP isCreateShaderEv ≤ 1 := by
  unfold failDescEvents
  cases d.Source with
  | some src => simp [List.countP_cons, isCreateShaderEv]
  | none =>
      cases d.Path with
      | some path =>
          cases hf : env.files path with
          | some src => simp [List.countP_cons, isCreateShaderEv, hf]
          | none => simp [List.countP_cons, isCreateShaderEv, hf]
      | none => simp

lemma countP_failDescEvents_read (env : GLEnv) (d : SkrShader) (h : Nat) :
    (failDescEvents env d h).countP isReadFileEv ≤ 1 := by
  unfold failDescEvents
  cases d.Source with
  | some src => simp [List.countP_cons, isReadFileEv]
  | none =>
      cases d.Path with
      | some path =>
          cases hf : env.files path with
          | some src => simp [List.countP_cons, isReadFileEv, hf]
          | none => simp [List.countP_cons, isReadFileEv, hf]
      | none => simp

lemma countP_map_deleteShader_create (l : List Nat) :
    (l.map Event.deleteShader).countP isCreateShaderEv = 0 := by
  induction l with
  | nil => simp
  | cons a l ih => simp [List.countP_cons, isCreateShaderEv, ih]

lemma countP_map_deleteShader_read (l : List Nat) :
    (l.map Event.deleteShader).countP isReadFileEv = 0 := by
  induction l with
  | nil => simp
  | cons a l ih => simp [List.countP_cons, isReadFileEv, ih]

/-! ## Claim theorems -/

/-- C1: for every shader-descriptor batch passed to
`m_skr_gl_create_program_from_shaders`, if the descriptor at index `k`
(= `pre.length`; all of `pre` resolves and compiles, `d` is the first to
fail), then the call returns the failure sentinel 0; the shader objects
deleted among those compiled for the batch (the names `st.nextShader + 1 ...
st.nextShader + k` assigned to indices `0 .. k-1`) are exactly those `k`
handles, each deleted once, in index order; and no descriptor beyond index `k`
is compiled or resolved: the whole call creates at most `k + 1` shader objects
and performs at most `k + 1` file reads. -/
theorem c1_buildProgram_first_failure_cleanup (env : GLEnv)
    (pre : List SkrShader) (d : SkrShader) (rest : List SkrShader) (st : GLState)
    (hpre : ∀ x ∈ pre, descOk env x = true) (hd : descOk env d = false) :
    (m_skr_gl_create_program_from_shaders env (pre ++ d :: rest) st).1 = 0 ∧
    batchDeletes (st.nextShader + pre.length)
      (((m_skr_gl_create_program_from_shaders env (pre ++ d :: rest) st).2.trace).drop
        st.trace.length) = handleRange st.nextShader pre.length ∧
    ((((m_skr_gl_create_program_from_shaders env (pre ++ d :: rest) st).2.trace).drop
        st.trace.length).countP isCreateShaderEv ≤ pre.length + 1 ∧
     (((m_skr_gl_create_program_from_shaders env (pre ++ d :: rest) st).2.trace).drop
        st.trace.length).countP isReadFileEv ≤ pre.length + 1) := by
  obtain ⟨ha, hb⟩ := buildLoop_first_fail env d rest hd pre [] st hpre
  have hne : (pre ++ d :: rest).isEmpty = false := by simp
  have hres : buildLoop env (pre ++ d :: rest) [] st =
      (none, (buildLoop env (pre ++ d :: rest) [] st).2) := by
    rw [← ha]
  have hcall : m_skr_gl_create_program_from_shaders env (pre ++ d :: rest) st =
      (0, (buildLoop env (pre ++ d :: rest) [] st).2) := by
    simp only [m_skr_gl_create_program_from_shaders, hne]
    rw [hres]
    simp
  rw [hcall]
  have hdrop :
      ((0, (buildLoop env (pre ++ d :: rest) [] st).2).2.trace).drop st.trace.length =
        okBatchEvents pre st.nextShader
          ++ failDescEvents env d (st.nextShader + pre.length + 1)
          ++ (([] ++ handleRange st.nextShader pre.length).map Event.deleteShader) := by
    rw [hb, List.drop_left]
  refine ⟨rfl, ?_, ?_, ?_⟩
  · rw [hdrop]
    rw [batchDeletes_append, batchDeletes_append]
    rw [batchDeletes_okBatchEvents]
    rw [batchDeletes_failDescEvents env d _ _ (by omega)]
    simp only [List.nil_append]
    rw [batchDeletes_map_deleteShader _ _ (handleRange_le pre.length st.nextShader)]
  · rw [hdrop]
    simp only [List.countP_append, List.nil_append]
    have h1 := countP_okBatchEvents_create pre st.nextShader
    have h2 := countP_failDescEvents_create env d (st.nextShader + pre.length + 1)
    have h3 := countP_map_deleteShader_create (handleRange st.nextShader pre.length)
    omega
  · rw [hdrop]
    simp only [List.countP_append, List.nil_append]
    have h1 := countP_okBatchEvents_read pre st.nextShader
    have h2 := countP_failDescEvents_read env d (st.nextShader + pre.length + 1)
    have h3 := countP_map_deleteShader_read (handleRange st.nextShader pre.length)
    omega

/-- Witness for C1: in the batch `[good, bad, good]` under `skrTestEnv` the
descriptor at index 1 is the first failure, and the call returns 0. -/
theorem c1_buildProgram_first_failure_cleanup_witness :
    (∀ x ∈ [skrGoodVert], descOk skrTestEnv x = true) ∧
    descOk skrTestEnv skrBadFrag = false ∧
    (m_skr_gl_create_program_from_shaders skrTestEnv
      ([skrGoodVert] ++ skrBadFrag :: [skrGoodVert]) skrTestState).1 = 0 :=
  ⟨by decide, by decide,
   (c1_buildProgram_first_failure_cleanup skrTestEnv [skrGoodVert] skrBadFrag
      [skrGoodVert] skrTestState (by decide) (by decide)).1⟩

lemma drawMeshes_eq : ∀ (ms : List SkrMesh) (st : GLState),
    drawMeshes ms st = emitAll (meshesDrawEvents ms) st := by
  intro ms
  induction ms with
  | nil => intro st; simp [drawMeshes, meshesDrawEvents, emitAll_nil]
  | cons m rest ih =>
      intro st
      by_cases h : m.VAO = 0 || m.VertexCount = 0
      · simp only [drawMeshes]
        rw [ih]
        simp [meshesDrawEvents, meshDrawEvents, h, emitAll_emitAll]
      · simp only [drawMeshes]
        rw [ih]
        simp [meshesDrawEvents, meshDrawEvents, h, emitAll_emitAll]

lemma drawModels_eq : ∀ (mos : List SkrModel) (st : GLState),
    drawModels mos st = emitAll (modelsDrawEvents mos) st := by
  intro mos
  induction mos with
  | nil => intro st; simp [drawModels, modelsDrawEvents, emitAll_nil]
  | cons mo rest ih =>
      intro st
      cases hm : mo.Meshes with
      | none =>
          simp only [drawModels, hm]
          rw [ih]
          simp [modelsDrawEvents, hm]
      | some ms =>
          simp only [drawModels, hm]
          rw [drawMeshes_eq, ih, emitAll_emitAll]
          simp [modelsDrawEvents, hm]

lemma renderer_render_eq (s : SkrState) (st : GLState) :
    m_skr_gl_renderer_render s st = emitAll (renderEvents s) st := by
  simp only [m_skr_gl_renderer_render]
  rw [drawModels_eq, emitAll_emitAll, emitAll_emitAll]
  simp [renderEvents]

/-- C2 (counterexample): at a concrete state with an installed input handler
and no models, the frame trace of `SkrRendererRender` is input handler,
framebuffer query, clear, draw-pass unbind, swap, poll — and in particular it
is not the order claimed by the specification, which places the event poll
second (right after the input handler and before the framebuffer query). -/
theorem c2_frame_order_counterexample :
    (SkrRendererRender skrTestFrameEnv (some skrTestEngineState) skrTestState).2.trace =
      [Event.inputHandler, Event.getFramebufferSize, Event.clearBuffers,
       Event.bindVertexArray 0, Event.swapBuffers, Event.pollEvents] ∧
    (SkrRendererRender skrTestFrameEnv (some skrTestEngineState) skrTestState).2.trace ≠
      [Event.inputHandler, Event.pollEvents, Event.getFramebufferSize,
       Event.clearBuffers, Event.bindVertexArray 0, Event.swapBuffers] := by
  decide

/-- C2 (amended): for every frame on a state with a window, the per-frame
steps run in exactly this fixed order, none skipped: (1) the installed input
handler if any, (2) re-query the framebuffer size and store it on the window,
(3) clear color and depth buffers, (4) the `renderAll` draw pass, (5) swap
buffers, (6) poll backend events.  The error channel is untouched. -/
theorem c2_frame_order_amended (env : FrameEnv) (s : SkrState) (w : SkrWindow)
    (st : GLState) (hw : s.Window = some w) :
    (SkrRendererRender env (some s) st).1 =
      some { s with Window := some { w with Width := env.fbW, Height := env.fbH } } ∧
    (SkrRendererRender env (some s) st).2.err = st.err ∧
    (SkrRendererRender env (some s) st).2.trace =
      st.trace ++ (if w.hasInputHandler then [Event.inputHandler] else [])
        ++ [Event.getFramebufferSize] ++ renderEvents s
        ++ [Event.swapBuffers, Event.pollEvents] := by
  simp only [SkrRendererRender, m_skr_gl_glfw_renderer_render, hw]
  rw [renderer_render_eq]
  by_cases h : w.hasInputHandler
  · refine ⟨by trivial, ?_, ?_⟩
    · simp [h, emitAll_err, emitAll_emitAll, emitAll]
    · simp [h, emitAll_emitAll, emitAll, renderEvents]
  · refine ⟨by trivial, ?_, ?_⟩
    · simp [h, emitAll_err, emitAll_emitAll, emitAll]
    · simp [h, emitAll_emitAll, emitAll, renderEvents]

/-- Witness for C2 (amended) at the concrete fixture state. -/
theorem c2_frame_order_amended_witness :
    skrTestEngineState.Window = some skrTestWindow ∧
    (SkrRendererRender skrTestFrameEnv (some skrTestEngineState) skrTestState).2.trace =
      skrTestState.trace
        ++ (if skrTestWindow.hasInputHandler then [Event.inputHandler] else [])
        ++ [Event.getFramebufferSize] ++ renderEvents skrTestEngineState
        ++ [Event.swapBuffers, Event.pollEvents] :=
  ⟨rfl, (c2_frame_order_amended skrTestFrameEnv skrTestEngineState skrTestWindow
    skrTestState rfl).2.2⟩

/-- C10: `SkrRendererRender` called with a NULL state pointer, or with a state
whose `Window` is NULL, returns immediately: the state is returned unchanged,
no backend call is made and the error channel is untouched (the returned
`GLState` is exactly the input one). -/
theorem c10_render_null_guard (env : FrameEnv) (os : Option SkrState) (st : GLState)
    (h : ∀ s, os = some s → s.Window = none) :
    SkrRendererRender env os st = (os, st) := by
  cases os with
  | none => simp [SkrRendererRender]
  | some s =>
      have hw := h s rfl
      simp [SkrRendererRender, hw]

/-- Witness for C10 at the NULL state pointer. -/
theorem c10_render_null_guard_witness :
    SkrRendererRender skrTestFrameEnv none skrTestState = (none, skrTestState) :=
  c10_render_null_guard skrTestFrameEnv none skrTestState (fun _ h => nomatch h)

/-- C3: the claim requires every failing `m_skr_gl_create_shader_from_file`
call to leave the error channel non-empty.  The code violates it: at a path
whose file is readable but whose contents fail to compile, the call returns
the sentinel 0 yet the unconditional `m_skr_last_error_clear` at the end of
the function leaves the channel empty (`SKR_OK` true). -/
theorem c3_compileFromFile_clears_error_on_compile_failure :
    (m_skr_gl_create_shader_from_file skrTestEnv GL_VERTEX_SHADER
        "f.glsl".toList skrTestState).1 = 0 ∧
    SKR_OK (m_skr_gl_create_shader_from_file skrTestEnv GL_VERTEX_SHADER
        "f.glsl".toList skrTestState).2.err = true := by
  decide

/-- C7: the claim requires every batch containing a both-NULL descriptor to
fail with a non-empty error channel.  The code violates the channel half: in
the batch `[file-based shader that reads but fails to compile, both-NULL
descriptor]` the call returns 0, but the spurious clear inside
`m_skr_gl_create_shader_from_file` leaves the channel empty. -/
theorem c7_buildProgram_both_null_error_cleared :
    skrNullDesc.Source = none ∧ skrNullDesc.Path = none ∧
    (m_skr_gl_create_program_from_shaders skrTestEnv [skrFileFrag, skrNullDesc]
        skrTestState).1 = 0 ∧
    SKR_OK (m_skr_gl_create_program_from_shaders skrTestEnv [skrFileFrag, skrNullDesc]
        skrTestState).2.err = true := by
  decide

/-- C4: clearing the error channel always makes `SKR_OK` true; and whenever
the metadata banner fits the buffer (as it does for the `skr.h` call sites),
any `set` leaves `SKR_OK` false, the buffer holds exactly the formatted string
(banner followed by message) truncated to `SKR_LAST_ERROR_SIZE - 1`
characters, and the write never exceeds the capacity. -/
theorem c4_error_channel_set_clear (e : ErrBuf) (file : List Char) (line : Nat)
    (func : List Char) (msg : List Char)
    (hb : (skrErrMetaBanner file line func).length < SKR_LAST_ERROR_SIZE) :
    SKR_OK (m_skr_last_error_clear e) = true ∧
    SKR_OK (m_skr_last_error_set_with_meta file line func msg) = false ∧
    m_skr_last_error_set_with_meta file line func msg =
      (skrErrMetaBanner file line func ++ msg).take (SKR_LAST_ERROR_SIZE - 1) ∧
    (m_skr_last_error_set_with_meta file line func msg).length
      < SKR_LAST_ERROR_SIZE := by
  have hset : m_skr_last_error_set_with_meta file line func msg =
      (skrErrMetaBanner file line func ++ msg).take (SKR_LAST_ERROR_SIZE - 1) := by
    simp [m_skr_last_error_set_with_meta, hb]
  have hpos : 0 < (skrErrMetaBanner file line func).length := by
    simp [skrErrMetaBanner]
  have hlenpos :
      0 < ((skrErrMetaBanner file line func ++ msg).take
        (SKR_LAST_ERROR_SIZE - 1)).length := by
    rw [List.length_take, List.length_append]
    have : (0 : Nat) < SKR_LAST_ERROR_SIZE - 1 := by simp [SKR_LAST_ERROR_SIZE]
    omega
  refine ⟨rfl, ?_, hset, ?_⟩
  · rw [hset]
    cases hx : (skrErrMetaBanner file line func ++ msg).take
        (SKR_LAST_ERROR_SIZE - 1) with
    | nil => rw [hx] at hlenpos; simp at hlenpos
    | cons a l => simp [SKR_OK]
  · rw [hset, List.length_take]
    have : SKR_LAST_ERROR_SIZE - 1 < SKR_LAST_ERROR_SIZE := by
      simp [SKR_LAST_ERROR_SIZE]
    omega

/-- Witness for C4 at a concrete set: the banner of a `skr.h` call site fits,
and the channel reads non-empty afterwards. -/
theorem c4_error_channel_set_clear_witness :
    (skrErrMetaBanner ("skr.h".toList) 547 ("buildProgram".toList)).length
      < SKR_LAST_ERROR_SIZE ∧
    SKR_OK (m_skr_last_error_set_with_meta ("skr.h".toList) 547
      ("buildProgram".toList) ("boom".toList)) = false :=
  ⟨by decide,
   (c4_error_channel_set_clear [] ("skr.h".toList) 547 ("buildProgram".toList)
      ("boom".toList) (by decide)).2.1⟩

/-- C5: after every `m_skr_gl_glfw_mouse_callback` call on any camera state,
any cursor position and any sensitivity, the pitch lies in `[-89, 89]`; once
the accumulated raw pitch reaches or exceeds 89 the stored pitch is pinned at
exactly 89 (symmetrically at -89); and the front vector recomputed from the
new yaw and pitch and renormalized by `glm_vec3_normalize_to` has unit norm. -/
theorem c5_pitch_clamp_front_normalized (c : SkrCamera) (x y : ℚ) :
    (-89 ≤ (m_skr_gl_glfw_mouse_callback c x y).Pitch ∧
     (m_skr_gl_glfw_mouse_callback c x y).Pitch ≤ 89) ∧
    (c.FirstMouse = false → 89 ≤ c.Pitch + (c.LastY - y) * c.Sensitivity →
      (m_skr_gl_glfw_mouse_callback c x y).Pitch = 89) ∧
    (c.FirstMouse = false → c.Pitch + (c.LastY - y) * c.Sensitivity ≤ -89 →
      (m_skr_gl_glfw_mouse_callback c x y).Pitch = -89) ∧
    vec3norm (glm_vec3_normalize_to (cameraFront
      ((m_skr_gl_glfw_mouse_callback c x y).Yaw : ℝ)
      ((m_skr_gl_glfw_mouse_callback c x y).Pitch : ℝ))) = 1 := by
  refine ⟨?_, ?_, ?_, vec3norm_normalize_cameraFront _ _⟩
  · by_cases hf : c.FirstMouse <;>
      simp [m_skr_gl_glfw_mouse_callback, hf] <;>
      split_ifs <;> constructor <;> linarith
  · intro hf hge
    simp [m_skr_gl_glfw_mouse_callback, hf]
    split_ifs <;> intros <;> linarith
  · intro hf hle
    simp [m_skr_gl_glfw_mouse_callback, hf]
    split_ifs <;> intros <;> linarith

/-- Witness for C5: a camera at pitch 88 receiving an upward delta of 10 (raw
pitch 98) is pinned at exactly 89, which lies in the clamp range. -/
theorem c5_pitch_clamp_front_normalized_witness :
    skrTestCamera.FirstMouse = false ∧
    (89 : ℚ) ≤ skrTestCamera.Pitch
      + (skrTestCamera.LastY - 0) * skrTestCamera.Sensitivity ∧
    (m_skr_gl_glfw_mouse_callback skrTestCamera 0 0).Pitch = 89 ∧
    (m_skr_gl_glfw_mouse_callback skrTestCamera 0 0).Pitch ≤ 89 :=
  ⟨rfl, by norm_num [skrTestCamera],
   (c5_pitch_clamp_front_normalized skrTestCamera 0 0).2.1 rfl
     (by norm_num [skrTestCamera]),
   (c5_pitch_clamp_front_normalized skrTestCamera 0 0).1.2⟩

/-- C6 (counterexample): the claim says the first call (with `FirstMouse`
true) leaves pitch unchanged for every camera state; but on a camera whose
pitch 100 lies outside the clamp range the first call still clamps, changing
the pitch to 89. -/
theorem c6_first_mouse_counterexample :
    skrTestCameraOut.FirstMouse = true ∧
    (m_skr_gl_glfw_mouse_callback skrTestCameraOut 5 7).Pitch = 89 ∧
    (m_skr_gl_glfw_mouse_callback skrTestCameraOut 5 7).Pitch
      ≠ skrTestCameraOut.Pitch := by
  refine ⟨rfl, ?_, ?_⟩ <;>
    norm_num [m_skr_gl_glfw_mouse_callback, skrTestCameraOut]

/-- C6 (amended): for every camera state with `FirstMouse` true whose pitch
satisfies the documented invariant `[-89, 89]`, the first call primes
`LastX`/`LastY` to the cursor position, leaves yaw and pitch unchanged (the
delta is zero), and clears `FirstMouse`; a pitch outside that range is instead
clamped into it. -/
theorem c6_first_mouse_amended (c : SkrCamera) (x y : ℚ) (hf : c.FirstMouse = true)
    (hlo : -89 ≤ c.Pitch) (hhi : c.Pitch ≤ 89) :
    (m_skr_gl_glfw_mouse_callback c x y).Yaw = c.Yaw ∧
    (m_skr_gl_glfw_mouse_callback c x y).Pitch = c.Pitch ∧
    (m_skr_gl_glfw_mouse_callback c x y).LastX = x ∧
    (m_skr_gl_glfw_mouse_callback c x y).LastY = y ∧
    (m_skr_gl_glfw_mouse_callback c x y).FirstMouse = false := by
  refine ⟨?_, ?_, ?_, ?_, ?_⟩ <;>
    simp [m_skr_gl_glfw_mouse_callback, hf] <;>
    split_ifs <;> first | rfl | linarith

/-- Witness for C6 (amended) at a first-mouse camera with pitch 0. -/
theorem c6_first_mouse_amended_witness :
    skrTestCameraFirst.FirstMouse = true ∧
    (m_skr_gl_glfw_mouse_callback skrTestCameraFirst 3 4).Pitch
      = skrTestCameraFirst.Pitch ∧
    (m_skr_gl_glfw_mouse_callback skrTestCameraFirst 3 4).FirstMouse = false :=
  ⟨rfl,
   (c6_first_mouse_amended skrTestCameraFirst 3 4 rfl (by norm_num [skrTestCameraFirst])
      (by norm_num [skrTestCameraFirst])).2.1,
   (c6_first_mouse_amended skrTestCameraFirst 3 4 rfl (by norm_num [skrTestCameraFirst])
      (by norm_num [skrTestCameraFirst])).2.2.2.2⟩

/-- C8: when a descriptor carries both `Source` and `Path`, the
descriptor-resolution step of `m_skr_gl_create_program_from_shaders`
(`resolveShaderDesc`) delegates to the in-memory compile
`m_skr_gl_create_shader` on the source text, and the file at `Path` is never
read: the step performs no `readFile` backend call at all. -/
theorem c8_source_precedence (env : GLEnv) (d : SkrShader) (src p : List Char)
    (st : GLState) (hs : d.Source = some src) (hp : d.Path = some p) :
    resolveShaderDesc env d st =
      (some (m_skr_gl_create_shader env d.Typ src st).1,
       (m_skr_gl_create_shader env d.Typ src st).2) ∧
    (((resolveShaderDesc env d st).2.trace).drop st.trace.length).countP
      isReadFileEv = 0 := by
  constructor
  · simp [resolveShaderDesc, hs]
  · simp only [resolveShaderDesc, hs]
    by_cases hc : env.compileOk d.Typ src
    · rw [create_shader_ok env d.Typ src st hc]
      simp [List.drop_left, isReadFileEv]
    · rw [create_shader_fail env d.Typ src st (by simpa using hc)]
      simp [List.drop_left, isReadFileEv]

/-- Witness for C8 at a descriptor with both source and path present. -/
theorem c8_source_precedence_witness :
    skrBothDesc.Source = some ("good".toList) ∧
    skrBothDesc.Path = some ("f.glsl".toList) ∧
    resolveShaderDesc skrTestEnv skrBothDesc skrTestState =
      (some (m_skr_gl_create_shader skrTestEnv skrBothDesc.Typ ("good".toList)
        skrTestState).1,
       (m_skr_gl_create_shader skrTestEnv skrBothDesc.Typ ("good".toList)
        skrTestState).2) :=
  ⟨rfl, rfl,
   (c8_source_precedence skrTestEnv skrBothDesc ("good".toList) ("f.glsl".toList)
      skrTestState rfl rfl).1⟩

lemma deleteTexturesFold_eq (ts : List Nat) (st : GLState) :
    ts.foldl (fun acc t => emitAll [.deleteTexture t] acc) st
      = emitAll (ts.map Event.deleteTexture) st := by
  induction ts generalizing st with
  | nil => simp [emitAll]
  | cons t rest ih =>
      simp only [List.foldl_cons]
      rw [ih, emitAll_emitAll]
      simp

lemma deleteTexturesFold_err (ts : List Nat) (st : GLState) :
    (ts.foldl (fun acc t => emitAll [.deleteTexture t] acc) st).err = st.err := by
  rw [deleteTexturesFold_eq, emitAll_err]

lemma deleteTexturesFold_trace (ts : List Nat) (st : GLState) :
    (ts.foldl (fun acc t => emitAll [.deleteTexture t] acc) st).trace
      = st.trace ++ ts.map Event.deleteTexture := by
  rw [deleteTexturesFold_eq, emitAll_trace]

lemma countP_map_deleteTexture_buffer (ts : List Nat) :
    (ts.map Event.deleteTexture).countP isBufferDeleteEv = 0 := by
  induction ts with
  | nil => simp
  | cons t rest ih => simp [List.countP_cons, isBufferDeleteEv, ih]

lemma finalizeMesh_zero (m : SkrMesh) (st : GLState) (h : meshHandlesZero m) :
    (finalizeMesh m st).1 = m ∧
    (finalizeMesh m st).2.err = st.err ∧
    ∃ es, (finalizeMesh m st).2.trace = st.trace ++ es ∧
      es.countP isBufferDeleteEv = 0 := by
  obtain ⟨h1, h2, h3, h4⟩ := h
  refine ⟨?_, ?_, ?_⟩
  · cases m with
    | mk vao vbo ebo vc ts prog =>
        simp at h1 h2 h3 h4
        simp [finalizeMesh, h1, h2, h3, h4]
  · cases hts : m.Textures with
    | none => simp [finalizeMesh, hts, h1, h2, h3]
    | some ts =>
        by_cases hl : ts.length > 0
        · simp [finalizeMesh, hts, hl, h1, h2, h3, deleteTexturesFold_err]
        · simp [finalizeMesh, hts, hl, h1, h2, h3]
  · cases hts : m.Textures with
    | none =>
        refine ⟨[], ?_, by simp⟩
        simp [finalizeMesh, hts, h1, h2, h3]
    | some ts =>
        by_cases hl : ts.length > 0
        · refine ⟨ts.map Event.deleteTexture, ?_, countP_map_deleteTexture_buffer ts⟩
          simp [finalizeMesh, hts, hl, h1, h2, h3, deleteTexturesFold_trace]
        · refine ⟨[], ?_, by simp⟩
          simp [finalizeMesh, hts, hl, h1, h2, h3]

lemma finalizeMeshes_zero : ∀ (ms : List SkrMesh) (st : GLState),
    (∀ m ∈ ms, meshHandlesZero m) →
    (finalizeMeshes ms st).1 = ms ∧
    (finalizeMeshes ms st).2.err = st.err ∧
    ∃ es, (finalizeMeshes ms st).2.trace = st.trace ++ es ∧
      es.countP isBufferDeleteEv = 0 := by
  intro ms
  induction ms with
  | nil =>
      intro st _
      exact ⟨rfl, rfl, [], by simp [finalizeMeshes], by simp⟩
  | cons m rest ih =>
      intro st hall
      have hm := finalizeMesh_zero m st (hall m (List.mem_cons_self m rest))
      obtain ⟨hm1, hm2, es1, hm3, hm4⟩ := hm
      have hr := ih (finalizeMesh m st).2
        (fun x hx => hall x (List.mem_cons_of_mem m hx))
      obtain ⟨hr1, hr2, es2, hr3, hr4⟩ := hr
      refine ⟨?_, ?_, es1 ++ es2, ?_, ?_⟩
      · simp [finalizeMeshes, hm1, hr1]
      · simp [finalizeMeshes, hr2, hm2]
      · simp [finalizeMeshes, hr3, hm3]
      · simp [List.countP_append, hm4, hr4]

lemma finalizeModels_zero : ∀ (mos : List SkrModel) (st : GLState),
    (∀ mo ∈ mos, ∀ m ∈ mo.Meshes.getD [], meshHandlesZero m) →
    (finalizeModels mos st).1 = mos ∧
    (finalizeModels mos st).2.err = st.err ∧
    ∃ es, (finalizeModels mos st).2.trace = st.trace ++ es ∧
      es.countP isBufferDeleteEv = 0 := by
  intro mos
  induction mos with
  | nil =>
      intro st _
      exact ⟨rfl, rfl, [], by simp [finalizeModels], by simp⟩
  | cons mo rest ih =>
      intro st hall
      have hrest : ∀ x ∈ rest, ∀ m ∈ x.Meshes.getD [], meshHandlesZero m :=
        fun x hx => hall x (List.mem_cons_of_mem mo hx)
      cases hms : mo.Meshes with
      | none =>
          have hr := ih st hrest
          obtain ⟨hr1, hr2, es2, hr3, hr4⟩ := hr
          refine ⟨?_, ?_, es2, ?_, hr4⟩
          · simp [finalizeModels, hms, hr1]
          · simp [finalizeModels, hms, hr2]
          · simp [finalizeModels, hms, hr3]
      | some ms =>
          have hmeshes : ∀ m ∈ ms, meshHandlesZero m := by
            have := hall mo (List.mem_cons_self mo rest)
            simpa [hms] using this
          have hm := finalizeMeshes_zero ms st hmeshes
          obtain ⟨hm1, hm2, es1, hm3, hm4⟩ := hm
          have hr := ih (finalizeMeshes ms st).2 hrest
          obtain ⟨hr1, hr2, es2, hr3, hr4⟩ := hr
          have hmo : ({ mo with Meshes := some ms } : SkrModel) = mo := by
            cases mo
            simp at hms
            simp [hms]
          refine ⟨?_, ?_, es1 ++ es2, ?_, ?_⟩
          · simp [finalizeModels, hms, hm1, hr1, hmo]
          · simp [finalizeModels, hms, hr2, hm2]
          · simp [finalizeModels, hms, hr3, hm3]
          · simp [List.countP_append, hm4, hr4]

/-- C9: running `m_skr_gl_renderer_finalize` on a state in which every mesh
already has zero VAO, VBO, EBO and program handles is a no-op on the mesh
fields: the state comes back unchanged (all handles still zero), the error
channel is untouched, and no vertex-array or buffer deletion is issued (only
texture deletions and the defensive unbinds may appear in the trace). -/
theorem c9_finalize_idempotent (s : SkrState) (st : GLState)
    (h : stateMeshesZero s) :
    (m_skr_gl_renderer_finalize (some s) st).1 = some s ∧
    (m_skr_gl_renderer_finalize (some s) st).2.err = st.err ∧
    ∃ es, (m_skr_gl_renderer_finalize (some s) st).2.trace = st.trace ++ es ∧
      es.countP isBufferDeleteEv = 0 := by
  have hmods := finalizeModels_zero s.Models st h
  obtain ⟨h1, h2, es, h3, h4⟩ := hmods
  refine ⟨?_, ?_, ?_⟩
  · simp [m_skr_gl_renderer_finalize, h1]
  · simp [m_skr_gl_renderer_finalize, emitAll_err, h2]
  · refine ⟨es ++ [Event.bindVertexArray 0, Event.bindBuffer GL_ARRAY_BUFFER 0,
      Event.bindBuffer GL_ELEMENT_ARRAY_BUFFER 0, Event.useProgram 0], ?_, ?_⟩
    · simp [m_skr_gl_renderer_finalize, emitAll_trace, h3]
    · simp [List.countP_append, h4, List.countP_cons, isBufferDeleteEv]

/-- Witness for C9 at a concrete already-zeroed state. -/
theorem c9_finalize_idempotent_witness :
    stateMeshesZero skrZeroedState ∧
    (m_skr_gl_renderer_finalize (some skrZeroedState) skrTestState).1
      = some skrZeroedState :=
  ⟨by simp [stateMeshesZero, skrZeroedState, meshHandlesZero],
   (c9_finalize_idempotent skrZeroedState skrTestState
      (by simp [stateMeshesZero, skrZeroedState, meshHandlesZero])).1⟩
